import Mathlib

/-!
Shallow embedding of `src/finder_v1.4.py` (sneakywarwolf/Subdomain), the
subdomain resolution-and-probe pipeline, together with theorems settling the
frozen claims about it.

Conventions used throughout:
* Python dict `{"Subdomain", "Status Code", "Accessible", "Resolved IP"}`
  becomes the structure `CheckResult`; the "Accessible" value is the literal
  string `"Yes"` / `"No"` exactly as in the code.
* The two network collaborators (dnspython and `requests.get`) are modelled as
  oracle functions passed in as parameters; the embedded functions consume
  their outcomes exactly the way the Python code consumes the library calls.
* Fallible Python code is embedded in `Except PyExc`: a `.error` value is an
  uncaught Python exception propagating out of the modelled fragment.
* A `Trace` records how many times `resolve_subdomain` was entered and how
  many times the HTTP probe (`requests.get`) was issued, so that claims about
  "no network call is made" / "exactly one attempt" are statable.
-/

/-- Character class `[A-Za-z0-9-]` of the first-label part of the validation
regex (src line 82). `Char.isAlphanum` is the ASCII alphanumeric test, which
matches Python's explicit `A-Za-z0-9` ranges. -/
def isClass1 (c : Char) : Bool :=
  c.isAlphanum || c = '-'

/-- Character class `[A-Za-z0-9.-]` of the tail part of the validation regex
(src line 82). -/
def isClass2 (c : Char) : Bool :=
  c.isAlphanum || c = '.' || c = '-'

/-- The first-label portion `(?!-)[A-Za-z0-9-]{1,63}(?<!-)` of the regex,
applied to the characters strictly before the first dot: 1 to 63 characters
from class 1, with neither the first nor the last character a hyphen. -/
def labelOk (pre : List Char) : Bool :=
  decide (1 ≤ pre.length ∧ pre.length ≤ 63 ∧ (∀ c ∈ pre, isClass1 c = true)
    ∧ pre.head? ≠ some '-' ∧ pre.getLast? ≠ some '-')

/-- The body of the tail `(?!-)[A-Za-z0-9.-]{1,255}` of the regex: 1 to 255
characters from class 2, not starting with a hyphen (the `(?!-)` lookahead
right after the mandatory dot). -/
def bodyOk (b : List Char) : Bool :=
  decide (1 ≤ b.length ∧ b.length ≤ 255 ∧ (∀ c ∈ b, isClass2 c = true)
    ∧ b.head? ≠ some '-')

/-- The tail together with Python's `$` anchor, which matches at the end of
the string or just before a single trailing newline. -/
def tailOk (post : List Char) : Bool :=
  bodyOk post || (post.getLast? == some '\n' && bodyOk post.dropLast)

/-- `is_valid_subdomain` (src lines 80-83):
`re.match(r'^(?!-)[A-Za-z0-9-]{1,63}(?<!-)\.(?!-)[A-Za-z0-9.-]{1,255}$', s)`.
Because class 1 excludes the dot, the `{1,63}` part must consume exactly the
characters before the first dot of `s`; the mandatory `\.` consumes that dot;
the rest of the string is matched by `tailOk`. No dot at all means no match. -/
def is_valid_subdomain (s : String) : Bool :=
  match s.toList.dropWhile (fun c => c != '.') with
  | [] => false
  | _ :: post => labelOk (s.toList.takeWhile (fun c => c != '.')) && tailOk post

/-- The characters of `s` strictly before its first dot (the part of the
string that the regex's fully-validated first label must cover). -/
def firstLabel (s : String) : List Char := s.toList.takeWhile (fun c => c != '.')

/-- The dot-separated labels of a string, as in Python's `s.split('.')`:
`labelsOf "a.b-".toList = [['a'], ['b', '-']]`. Used only to state claims
that speak about "any dot-separated label". -/
def labelsOf : List Char → List (List Char)
  | [] => [[]]
  | c :: cs =>
    if c = '.' then [] :: labelsOf cs
    else
      match labelsOf cs with
      | [] => [[c]]
      | l :: ls => (c :: l) :: ls

instance (ε α : Type) [DecidableEq ε] [DecidableEq α] : DecidableEq (Except ε α) := fun a b =>
  match a, b with
  | .error e₁, .error e₂ =>
    if h : e₁ = e₂ then .isTrue (by rw [h]) else .isFalse (by simp [h])
  | .error _, .ok _ => .isFalse (by simp)
  | .ok _, .error _ => .isFalse (by simp)
  | .ok v₁, .ok v₂ =>
    if h : v₁ = v₂ then .isTrue (by rw [h]) else .isFalse (by simp [h])

/-- A Python exception escaping the embedded fragment. The only one the
fragment can actually raise is the `NameError` produced by evaluating
`dns.resolver.Resolver()` (src line 88) in a module that never imports
`dns`. -/
inductive PyExc where
  | nameError
  deriving DecidableEq

/-- Value stored under "Status Code": either one of the marker strings
`"Invalid"` / `"Unresolved"` / `"N/A"`, or a numeric HTTP status code. -/
inductive StatusVal where
  | str (s : String)
  | code (n : Nat)
  deriving DecidableEq

/-- The result dict built by `check_subdomain` / `retry_with_resolvers`
(keys "Subdomain", "Status Code", "Accessible", "Resolved IP"); the
"Accessible" field is the literal string `"Yes"` or `"No"` as in the code. -/
structure CheckResult where
  subdomain : String
  statusCode : StatusVal
  accessible : String
  resolvedIp : String
  deriving DecidableEq

/-- Instrumentation: how many times `resolve_subdomain` was entered and how
many times `requests.get` was issued while producing a result. -/
structure Trace where
  resolveCalls : Nat
  probeCalls : Nat
  deriving DecidableEq

/-- Componentwise sum of two traces. -/
def Trace.add (a b : Trace) : Trace :=
  ⟨a.resolveCalls + b.resolveCalls, a.probeCalls + b.probeCalls⟩

/-- Outcome a dnspython `resolver.resolve(subdomain, 'A')` call would have:
a first A record, or one of the three caught exception classes
`NoAnswer` / `NXDOMAIN` / `Timeout` (src line 93). -/
inductive DnsOutcome where
  | answer (ip : String)
  | noAnswer
  | nxdomain
  | timeout
  deriving DecidableEq

/-- Outcome of a `requests.get` call: a response carrying a status code, or a
`requests.RequestException` (src lines 106-109). -/
inductive HttpOutcome where
  | resp (statusCode : Nat)
  | exn
  deriving DecidableEq

/-- Oracle giving, for a subdomain and an optional custom resolver IP, the
outcome the DNS library call would have. -/
def DnsOracle : Type := String → Option String → DnsOutcome

/-- Oracle giving, for a subdomain, the outcome of `requests.get` on
`http://subdomain`. -/
def HttpOracle : Type := String → HttpOutcome

/-- The module-level import list of `finder_v1.4.py` (src lines 1-12).
`dns` is conspicuously absent even though `resolve_subdomain` uses
`dns.resolver`. -/
def importedModules : List String :=
  ["os", "csv", "sys", "requests", "tqdm", "subprocess", "time",
    "concurrent.futures", "re", "argparse", "socket", "random"]

/-- Whether the name `dns` is bound at module scope. It is not. -/
def dnsImported : Bool := importedModules.contains "dns"

/-- `resolve_subdomain` (src lines 85-94). If `dns` were imported, the body
would query the oracle, returning the first A record or `none` on the three
caught exceptions. Since `dns` is not bound, evaluating
`dns.resolver.Resolver()` raises `NameError` before any network I/O (and the
`except` clause itself would also raise `NameError` evaluating its exception
tuple), so the call always propagates an exception. -/
def resolve_subdomain (dns : DnsOracle) (subdomain : String)
    (resolver_ip : Option String) : Except PyExc (Option String) :=
  if dnsImported then
    match dns subdomain resolver_ip with
    | .answer ip => .ok (some ip)
    | .noAnswer => .ok none
    | .nxdomain => .ok none
    | .timeout => .ok none
  else
    .error .nameError

/-- The `try/except` probe block of `check_subdomain` (src lines 105-111):
one `requests.get`, status code kept verbatim, accessible `"Yes"` exactly on
code 200; a `requests.RequestException` is caught and yields
`("N/A", "No")`. Returns the pair (status value, accessible string). -/
def probeStep (outcome : HttpOutcome) : StatusVal × String :=
  match outcome with
  | .resp statusCode => (.code statusCode, if statusCode = 200 then "Yes" else "No")
  | .exn => (.str "N/A", "No")

/-- `check_subdomain` (src lines 96-113): invalid input short-circuits to an
`"Invalid"` result with no calls; otherwise one resolution attempt, an
`"Unresolved"` result if it returns no IP, else one probe whose status and
accessibility are combined with the resolved IP (the resolved IP is kept in
the result even when the probe raised). An exception from
`resolve_subdomain` propagates (there is no `try` around it). -/
def check_subdomain (dns : DnsOracle) (http : HttpOracle) (subdomain : String)
    (resolver_ip : Option String) : Except PyExc CheckResult × Trace :=
  if is_valid_subdomain subdomain = false then
    (.ok ⟨subdomain, .str "Invalid", "No", "N/A"⟩, ⟨0, 0⟩)
  else
    match resolve_subdomain dns subdomain resolver_ip with
    | .error e => (.error e, ⟨1, 0⟩)
    | .ok none => (.ok ⟨subdomain, .str "Unresolved", "No", "N/A"⟩, ⟨1, 0⟩)
    | .ok (some resolved_ip) =>
      let sa := probeStep (http subdomain)
      (.ok ⟨subdomain, sa.1, sa.2, resolved_ip⟩, ⟨1, 1⟩)

/-- The loop of `retry_with_resolvers` (src lines 117-121), carrying the
accumulated trace: each resolver in order gets a full `check_subdomain`; the
first result whose "Accessible" field is `"Yes"` is returned; an uncaught
exception propagates; an exhausted list yields the generic
`"Unresolved"` fallback (src line 121). -/
def retryAux (dns : DnsOracle) (http : HttpOracle) (subdomain : String) :
    List String → Trace → Except PyExc CheckResult × Trace
  | [], t => (.ok ⟨subdomain, .str "Unresolved", "No", "N/A"⟩, t)
  | r :: rs, t =>
    match check_subdomain dns http subdomain (some r) with
    | (.error e, t₁) => (.error e, t.add t₁)
    | (.ok result, t₁) =>
      if result.accessible = "Yes" then (.ok result, t.add t₁)
      else retryAux dns http subdomain rs (t.add t₁)

/-- `retry_with_resolvers` (src lines 115-121). -/
def retry_with_resolvers (dns : DnsOracle) (http : HttpOracle)
    (subdomain : String) (resolvers : List String) :
    Except PyExc CheckResult × Trace :=
  retryAux dns http subdomain resolvers ⟨0, 0⟩

/-- The result collection of `check_subdomains_concurrently` (src lines
138-139): `list(executor.map(lambda sub: retry_with_resolvers(sub, resolvers),
subdomain_list))`. Consuming the map iterator re-raises, in input order, the
first exception a task raised, and otherwise yields one result per candidate. -/
def check_subdomains_concurrently (dns : DnsOracle) (http : HttpOracle) :
    List String → List String → Except PyExc (List CheckResult)
  | [], _ => .ok []
  | sub :: subs, resolvers =>
    match (retry_with_resolvers dns http sub resolvers).1 with
    | .error e => .error e
    | .ok r =>
      match check_subdomains_concurrently dns http subs resolvers with
      | .error e => .error e
      | .ok rs => .ok (r :: rs)

/-- The row filter of `write_filtered_to_csv` (src line 125): exactly the
results whose "Subdomain" field re-validates are handed to the CSV writer,
in order. -/
def write_filtered_to_csv (results : List CheckResult) : List CheckResult :=
  results.filter (fun result => is_valid_subdomain result.subdomain)

/-- Test oracle: every lookup resolves to `93.184.216.1`. -/
def dnsGood : DnsOracle := fun _ _ => .answer "93.184.216.1"

/-- Test oracle: every lookup reports `NXDOMAIN`. -/
def dnsNone : DnsOracle := fun _ _ => .nxdomain

/-- Test oracle: every probe answers with HTTP 200. -/
def httpOk : HttpOracle := fun _ => .resp 200

/-- Test oracle: every probe answers with HTTP 404. -/
def httpNotFound : HttpOracle := fun _ => .resp 404

/-- Adding the zero trace on the right is the identity. -/
theorem Trace.add_zero (t : Trace) : t.add ⟨0, 0⟩ = t := by
  cases t
  simp [Trace.add]

/-- On an invalid hostname, `check_subdomain` returns the `"Invalid"` result
and touches neither the resolver nor the prober, for any resolver argument. -/
theorem check_subdomain_invalid (dns : DnsOracle) (http : HttpOracle)
    (sub : String) (r : Option String) (hv : is_valid_subdomain sub = false) :
    check_subdomain dns http sub r
      = (.ok ⟨sub, .str "Invalid", "No", "N/A"⟩, ⟨0, 0⟩) := by
  simp [check_subdomain, hv]

/-- On an invalid hostname the retry loop discards every per-resolver
`"Invalid"` result (its accessible field is `"No"`) and ends in the generic
`"Unresolved"` fallback, accumulating no calls. -/
theorem retryAux_invalid (dns : DnsOracle) (http : HttpOracle) (sub : String)
    (hv : is_valid_subdomain sub = false) :
    ∀ (rs : List String) (t : Trace),
      retryAux dns http sub rs t
        = (.ok ⟨sub, .str "Unresolved", "No", "N/A"⟩, t) := by
  intro rs
  induction rs with
  | nil => intro t; rfl
  | cons r rs ih =>
    intro t
    rw [retryAux, check_subdomain_invalid dns http sub (some r) hv]
    simp only [if_neg (by decide : ¬ ("No" = "Yes"))]
    rw [Trace.add_zero]
    exact ih t

/-- Claim C1 (amended): for every hostname that fails `is_valid_subdomain`
and every resolver list, the Retry Coordinator `retry_with_resolvers` makes
no resolution call and no probe call and returns one CheckResult with
accessible `"No"` and resolved IP `"N/A"` — but its status is
`"Unresolved"`, not `"Invalid"`: the inner `check_subdomain` does produce
the `"Invalid"` result immediately, yet the retry loop keeps only results
whose accessible field is `"Yes"` and so falls through to its generic
`"Unresolved"` fallback. -/
theorem c1_invalid_no_network (dns : DnsOracle) (http : HttpOracle)
    (sub : String) (rs : List String) (hv : is_valid_subdomain sub = false) :
    retry_with_resolvers dns http sub rs
      = (.ok ⟨sub, .str "Unresolved", "No", "N/A"⟩, ⟨0, 0⟩) := by
  rw [retry_with_resolvers]
  exact retryAux_invalid dns http sub hv rs ⟨0, 0⟩

/-- Closed instance of the amended claim C1, at the invalid hostname
`"bad-.example.com"` with resolver list `["10.0.0.1"]`. -/
theorem c1_invalid_no_network_witness :
    is_valid_subdomain "bad-.example.com" = false ∧
    retry_with_resolvers dnsGood httpOk "bad-.example.com" ["10.0.0.1"]
      = (.ok ⟨"bad-.example.com", .str "Unresolved", "No", "N/A"⟩, ⟨0, 0⟩) :=
  ⟨by decide,
    c1_invalid_no_network dnsGood httpOk "bad-.example.com" ["10.0.0.1"] (by decide)⟩

/-- Claim C1 as stated is false at a concrete input: `"bad-.example.com"`
fails validation, yet `retry_with_resolvers` on it with resolver list
`["10.0.0.1"]` returns the status string `"Unresolved"`, which is not the
claimed `"Invalid"`. -/
theorem c1_counterexample :
    is_valid_subdomain "bad-.example.com" = false ∧
    (retry_with_resolvers dnsNone httpNotFound "bad-.example.com" ["10.0.0.1"]).1
      = .ok ⟨"bad-.example.com", .str "Unresolved", "No", "N/A"⟩ ∧
    StatusVal.str "Unresolved" ≠ StatusVal.str "Invalid" := by decide

/-- Claim C2 is contradicted by the code: with an empty resolver list the
loop body of `retry_with_resolvers` never runs, so a valid hostname gets
zero resolution attempts (the trace records `resolveCalls = 0`) instead of
the claimed single default-resolver attempt, and the result is the
`"Unresolved"` fallback even though the DNS oracle used here would have
resolved the name and the probe would have answered 200. -/
theorem c2_empty_resolvers_zero_attempts :
    is_valid_subdomain "good.example.com" = true ∧
    retry_with_resolvers dnsGood httpOk "good.example.com" []
      = (.ok ⟨"good.example.com", .str "Unresolved", "No", "N/A"⟩, ⟨0, 0⟩) := by decide

/-- Claim C3 is not what the code does: for a valid hostname with a
non-empty resolver list, the very first attempt enters `resolve_subdomain`,
which raises `NameError` because the module never imports `dns`; the call
propagates the exception instead of returning the claimed `"Unresolved"`
CheckResult (here the DNS oracle would even have resolved the name and the
probe would have answered 404, the exact scenario of the claim). -/
theorem c3_exhausted_resolvers_raise :
    is_valid_subdomain "ghost.example.com" = true ∧
    retry_with_resolvers dnsGood httpNotFound "ghost.example.com" ["10.0.0.1"]
      = (.error .nameError, ⟨1, 0⟩) := by decide

/-- Claim C4 is contradicted by the code: on every valid hostname with a
non-empty resolver list, the `NameError` raised inside `resolve_subdomain`
(`dns` is referenced on src lines 88-93 but never imported) escapes
`check_subdomain` and `retry_with_resolvers`, so an exception does
propagate out and no CheckResult is returned on that path. -/
theorem c4_exception_escapes :
    is_valid_subdomain "probe.example.com" = true ∧
    (retry_with_resolvers dnsNone httpOk "probe.example.com" ["8.8.8.8"]).1
      = .error .nameError := by decide

/-- Claim C5 (amended): `is_valid_subdomain s` is false whenever `s` lacks a
dot, or the FIRST dot-separated label of `s` starts or ends with a hyphen,
or the first label exceeds 63 characters. (Labels after the first dot get no
such checks; see the counterexample.) -/
theorem c5_rejection_conditions (s : String)
    (h : ('.' ∉ s.toList) ∨ (firstLabel s).head? = some '-'
      ∨ (firstLabel s).getLast? = some '-' ∨ 63 < (firstLabel s).length) :
    is_valid_subdomain s = false := by
  unfold is_valid_subdomain
  split
  · rfl
  · next c post heq =>
    have hlab : labelOk (s.toList.takeWhile (fun c => c != '.')) = false := by
      rw [labelOk, decide_eq_false_iff_not]
      rintro ⟨-, hlen, -, hhead, hlast⟩
      rcases h with h1 | h2 | h3 | h4
      · have hnil : s.toList.dropWhile (fun c => c != '.') = [] := by
          rw [List.dropWhile_eq_nil_iff]
          intro x hx
          simp only [bne_iff_ne, ne_eq]
          intro hxdot
          exact h1 (hxdot ▸ hx)
        rw [hnil] at heq
        exact List.noConfusion heq
      · exact hhead (by simpa [firstLabel] using h2)
      · exact hlast (by simpa [firstLabel] using h3)
      · have : (firstLabel s).length ≤ 63 := by simpa [firstLabel] using hlen
        omega
    rw [hlab]
    exact Bool.false_and _

/-- Closed instance of the amended claim C5: `"nodot"` contains no dot and
is rejected. -/
theorem c5_rejection_conditions_witness :
    ('.' ∉ "nodot".toList) ∧ is_valid_subdomain "nodot" = false :=
  ⟨by decide, c5_rejection_conditions "nodot" (Or.inl (by decide))⟩

/-- Claim C5 as stated is false: `"a.b-"` has a dot-separated label ending
in a hyphen, and `"a."` followed by 64 letters has a 64-character label, yet
both pass `is_valid_subdomain` — the regex fully validates only the first
label and lets the tail through almost unchecked. -/
theorem c5_counterexample :
    (labelsOf ("a.b-".toList)).any (fun l => l.getLast? == some '-') = true ∧
    is_valid_subdomain "a.b-" = true ∧
    (labelsOf (("a." ++ String.mk (List.replicate 64 'b')).toList)).any
      (fun l => decide (63 < l.length)) = true ∧
    is_valid_subdomain ("a." ++ String.mk (List.replicate 64 'b')) = true := by decide

/-- Claim C6: in the probe block of `check_subdomain`, accessible is
`"Yes"` exactly when the HTTP response status code is 200; any other code is
recorded verbatim with accessible `"No"`; a network-level request failure
(`requests.RequestException`) is caught and yields status `"N/A"` with
accessible `"No"`; and a single `check_subdomain` never issues more than one
probe (no retry inside the prober). -/
theorem c6_probe_accessibility :
    (∀ o : HttpOutcome, (probeStep o).2 = "Yes" ↔ o = .resp 200) ∧
    (∀ n : Nat, n ≠ 200 → probeStep (.resp n) = (.code n, "No")) ∧
    probeStep .exn = (.str "N/A", "No") ∧
    (∀ (dns : DnsOracle) (http : HttpOracle) (sub : String) (r : Option String),
      (check_subdomain dns http sub r).2.probeCalls ≤ 1) := by
  refine ⟨?_, ?_, rfl, ?_⟩
  · intro o
    cases o with
    | resp n =>
      by_cases hn : n = 200
      · subst hn
        simp [probeStep]
      · simp [probeStep, hn]
    | exn => simp [probeStep]
  · intro n hn
    simp [probeStep, hn]
  · intro dns http sub r
    unfold check_subdomain
    split
    · exact Nat.zero_le 1
    · split
      · exact Nat.zero_le 1
      · exact Nat.zero_le 1
      · exact Nat.le_refl 1

/-- Closed instances of claim C6: a 404 response is recorded but not
accessible, and a 200 response is accessible. -/
theorem c6_probe_accessibility_witness :
    probeStep (.resp 404) = (.code 404, "No") ∧ (probeStep (.resp 200)).2 = "Yes" :=
  ⟨c6_probe_accessibility.2.1 404 (by decide),
    (c6_probe_accessibility.1 (.resp 200)).mpr rfl⟩

/-- Claim C7 is contradicted by the code: a run over two valid candidates
with a non-empty resolver list aborts with the `NameError` from
`resolve_subdomain` when the result iterator is consumed, so the run
produces no CheckResult at all for its candidates instead of exactly one
per candidate. -/
theorem c7_run_aborts_without_results :
    is_valid_subdomain "one.example.com" = true ∧
    is_valid_subdomain "two.example.com" = true ∧
    check_subdomains_concurrently dnsGood httpOk
      ["one.example.com", "two.example.com"] ["10.0.0.1"] = .error .nameError := by decide

/-- Claim C8: the output step passes to the CSV writer exactly those
collected CheckResults whose subdomain field re-validates under
`is_valid_subdomain`; any result whose subdomain fails validation is
excluded from output. -/
theorem c8_output_filter (results : List CheckResult) (result : CheckResult) :
    result ∈ write_filtered_to_csv results ↔
      result ∈ results ∧ is_valid_subdomain result.subdomain = true := by
  simp [write_filtered_to_csv, List.mem_filter]

/-- Closed instance of claim C8: the internally recorded result for
`"bad-.example.com"` is dropped by the output filter. -/
theorem c8_output_filter_witness :
    (⟨"bad-.example.com", .str "Unresolved", "No", "N/A"⟩ : CheckResult) ∉
      write_filtered_to_csv
        [⟨"bad-.example.com", .str "Unresolved", "No", "N/A"⟩] := by
  intro hmem
  have hval := ((c8_output_filter
    [⟨"bad-.example.com", .str "Unresolved", "No", "N/A"⟩]
    ⟨"bad-.example.com", .str "Unresolved", "No", "N/A"⟩).mp hmem).2
  exact absurd hval (by decide)
